import Mathlib

/-!
Verification of the Pokedex panel application against its specification.

The embedding below translates the JavaScript source components into Lean:
the scroll-gesture transition state machine of Pokedex.js, the random
Pokemon refresh pipeline of RandomPokemon.js, the hologram overlay of
Hologram.js, and the type selector of TypeSelector.js.  DOM mutation is
modelled as explicit state passing; asynchronous control flow is modelled
as an event sequence processed by a step function, with one event per
suspension point of the source.
-/

/-- A JavaScript number as it matters for the scroll handler: NaN, the two
infinities, or a finite value (modelled as a rational). -/
inductive JSNum where
  | nan : JSNum
  | posInf : JSNum
  | negInf : JSNum
  | fin : ℚ → JSNum
deriving DecidableEq

/-- IEEE comparison `x > 0`: false for NaN, true for +Infinity. -/
def JSNum.gtZero : JSNum → Bool
  | .nan => false
  | .posInf => true
  | .negInf => false
  | .fin q => decide (0 < q)

/-- IEEE comparison `x < 0`: false for NaN, true for -Infinity. -/
def JSNum.ltZero : JSNum → Bool
  | .nan => false
  | .posInf => false
  | .negInf => true
  | .fin q => decide (q < 0)

/-- JavaScript truthiness of a number: 0 and NaN are falsy. -/
def JSNum.truthy : JSNum → Bool
  | .nan => false
  | .posInf => true
  | .negInf => true
  | .fin q => decide (q ≠ 0)

/-- The two mutable flags of createPokedex (Pokedex.js lines 66-67):
`isOpened` and `isAnimating`.  The four transition states are the four
combinations: CLOSED = (false, false), OPENING = (false, true),
OPEN = (true, false), CLOSING = (true, true). -/
structure PokedexState where
  isOpened : Bool
  isAnimating : Bool
deriving DecidableEq

/-- The synchronous prefix of `openPokedex` (Pokedex.js lines 70-72): the
guard `if (isOpened || isAnimating) return;` followed by
`isAnimating = true;`.  The remainder of the async body runs after the
animation completes and is modelled by `openPokedexFinish`. -/
def openPokedexStart (s : PokedexState) : PokedexState :=
  if s.isOpened || s.isAnimating then s
  else { s with isAnimating := true }

/-- The tail of the `openPokedex` async body (Pokedex.js lines 112-113):
`isOpened = true; isAnimating = false;` after both awaited animations. -/
def openPokedexFinish (_s : PokedexState) : PokedexState :=
  { isOpened := true, isAnimating := false }

/-- The synchronous prefix of `closePokedex` (Pokedex.js lines 117-119):
the guard `if (!isOpened || isAnimating) return;` followed by
`isAnimating = true;`. -/
def closePokedexStart (s : PokedexState) : PokedexState :=
  if !s.isOpened || s.isAnimating then s
  else { s with isAnimating := true }

/-- The tail of the `closePokedex` async body (Pokedex.js lines 162-163):
`isOpened = false; isAnimating = false;`. -/
def closePokedexFinish (_s : PokedexState) : PokedexState :=
  { isOpened := false, isAnimating := false }

/-- A gesture event as `handleScroll` reads it: `e.deltaY` (undefined on
touch events, modelled as `none`) and the clientY of the first touch when
`e.touches` is present. -/
structure GestureEvent where
  deltaY : Option JSNum
  touches : Option JSNum
deriving DecidableEq

/-- The JavaScript expression `e.deltaY || (e.touches ? e.touches[0].clientY : 0)`
(Pokedex.js line 174): `||` returns the left operand when it is truthy
(undefined, 0 and NaN are falsy), else the right operand. -/
def normalizedDelta (e : GestureEvent) : JSNum :=
  match e.deltaY with
  | some v => if v.truthy then v else (match e.touches with
      | some y => y
      | none => .fin 0)
  | none => match e.touches with
      | some y => y
      | none => .fin 0

/-- The scroll handler of Pokedex.js lines 166-183: drop the event while
`isAnimating`; otherwise open on a positive delta when closed, close on a
negative delta when opened.  The called functions keep their own guards. -/
def handleScroll (e : GestureEvent) (s : PokedexState) : PokedexState :=
  if s.isAnimating then s
  else
    let deltaY := normalizedDelta e
    if deltaY.gtZero && !s.isOpened then openPokedexStart s
    else if deltaY.ltZero && s.isOpened then closePokedexStart s
    else s

/-- The CLOSED state: not opened, not animating. -/
def closedState : PokedexState := { isOpened := false, isAnimating := false }

/-- The OPEN state: opened, not animating. -/
def openState : PokedexState := { isOpened := true, isAnimating := false }

/-- The ItemSummary produced by `getRandomPokemon` (RandomPokemon.js lines
48-52): id, name, image URL. -/
structure Pokemon where
  id : Nat
  name : String
  image : String
deriving DecidableEq

/-- An error thrown by the JavaScript code: either an explicit
`throw new Error(msg)` or the runtime TypeError raised by reading a
property of `undefined` (the carried string is the property name). -/
inductive JSError where
  | thrown : String → JSError
  | undefinedPropertyRead : String → JSError
deriving DecidableEq

/-- The `message` of the error as the catch handlers read it; for the
TypeError this is the runtime text naming the property. -/
def JSError.message : JSError → String
  | .thrown m => m
  | .undefinedPropertyRead p => "Cannot read properties of undefined (reading " ++ p ++ ")"

/-- Whether the error is the runtime TypeError rather than an explicitly
constructed, classified failure. -/
def JSError.isUndefinedRead : JSError → Bool
  | .thrown _ => false
  | .undefinedPropertyRead _ => true

/-- A member of the list returned by `fetchPokemonByType`: after
`data.pokemon.map(p => p.pokemon)` each element has a name and a url. -/
structure Member where
  name : String
  url : String
deriving DecidableEq

/-- The fields of the detail record that `getRandomPokemon` projects:
`details.id`, `details.name`, and the official artwork sprite URL. -/
structure DetailRecord where
  id : Nat
  name : String
  artworkUrl : String
deriving DecidableEq

/-- The body of `getRandomPokemon` (RandomPokemon.js lines 42-53) after the
member list has been fetched.  `r` is the value of `Math.random()` and
`fetchDetails` the outcome of `fetchPokemonDetails` per url.  The source
computes `randomIndex = Math.floor(Math.random() * pokemonList.length)` and
reads `pokemonList[randomIndex].url` with no emptiness check: on an empty
list the index is 0, the element is undefined, and reading `.url` raises
the runtime TypeError. -/
def getRandomPokemon (pokemonList : List Member) (r : ℚ)
    (fetchDetails : String → Except JSError DetailRecord) : Except JSError Pokemon :=
  let randomIndex := (Rat.floor (r * (pokemonList.length : ℚ))).toNat
  match pokemonList.get? randomIndex with
  | none => .error (.undefinedPropertyRead "url")
  | some randomPokemon =>
    match fetchDetails randomPokemon.url with
    | .error e => .error e
    | .ok details => .ok { id := details.id, name := details.name, image := details.artworkUrl }

/-- The contents of the `pokemonDisplay` slot as `showPokemonWithHologram`
mutates it (Pokedex.js lines 199-247): untouched, the loading placeholder,
a rendered Pokemon, or the error paragraph. -/
inductive DisplayContent where
  | blank
  | loadingText
  | shown : Pokemon → DisplayContent
  | errorText : String → DisplayContent
deriving DecidableEq

/-- What the catch branch of `showPokemonWithHologram` writes for a failed
refresh, and what the success branch writes otherwise (Pokedex.js lines
209-223 and 244-246). -/
def refreshOutcomeDisplay : Except JSError Pokemon → DisplayContent
  | .ok p => .shown p
  | .error e => .errorText ("Error: " ++ e.message)

/-- The mutable state touched by overlapping `showPokemonWithHologram`
invocations and by the hologram Next button.  `inFlightRefreshes` counts
`getRandomPokemon` promises not yet settled; `pendingHolograms` holds the
scheduled 1000 ms hologram timeouts with their resolved Pokemon;
`origOverlayAttached` tracks whether the pre-existing hologram container
is still in the DOM; `origCloseAnimsRunning` counts running close
animations started by clicks on its Next button; `appendedOverlays` lists
the hologram containers appended to document.body by fired timeouts. -/
structure PokedexUI where
  currentType : Option String
  display : DisplayContent
  inFlightRefreshes : Nat
  pendingHolograms : List Pokemon
  origOverlayAttached : Bool
  origCloseAnimsRunning : Nat
  appendedOverlays : List Pokemon
deriving DecidableEq

/-- The suspension points of the source, one event per resumed
continuation.  The event order is the event-loop order in which the
continuations run. -/
inductive UIEvent where
  | refreshRequested : String → UIEvent
  | refreshResolvedOk : Pokemon → UIEvent
  | refreshResolvedErr : String → UIEvent
  | hologramDelayFired : UIEvent
  | nextClicked : UIEvent
  | nextCloseAnimSettled : UIEvent
deriving DecidableEq

/-- One event-loop step.
`refreshRequested t`: the synchronous prefix of `showPokemonWithHologram(t)`
(Pokedex.js lines 199-205): record the type, show the loading placeholder,
start the fetch.
`refreshResolvedOk p`: the continuation after `await getRandomPokemon`
(lines 209-237): the result is applied to the display unconditionally (the
source compares no generation token) and the 1000 ms hologram timeout is
scheduled with that Pokemon.
`refreshResolvedErr m`: the catch branch (lines 244-246).
`hologramDelayFired`: the oldest scheduled timeout runs (lines 226-237):
`createHologram` resolves and the container is appended to document.body.
`nextClicked`: a click on the Next button of the attached hologram
(Hologram.js lines 134-146) starts a close animation.
`nextCloseAnimSettled`: the continuation after `await nextAnim.finished`
(lines 143-145): `container.remove()` (a no-op if already detached), then
`onNext()`, which is `showPokemonWithHologram(currentType)` (Pokedex.js
lines 231-234), whose synchronous prefix runs immediately. -/
def stepUI (s : PokedexUI) : UIEvent → PokedexUI
  | .refreshRequested t =>
      { s with currentType := some t, display := .loadingText,
               inFlightRefreshes := s.inFlightRefreshes + 1 }
  | .refreshResolvedOk p =>
      if s.inFlightRefreshes > 0 then
        { s with inFlightRefreshes := s.inFlightRefreshes - 1,
                 display := .shown p,
                 pendingHolograms := s.pendingHolograms ++ [p] }
      else s
  | .refreshResolvedErr m =>
      if s.inFlightRefreshes > 0 then
        { s with inFlightRefreshes := s.inFlightRefreshes - 1,
                 display := .errorText ("Error: " ++ m) }
      else s
  | .hologramDelayFired =>
      match s.pendingHolograms with
      | [] => s
      | p :: rest =>
          { s with pendingHolograms := rest,
                   appendedOverlays := s.appendedOverlays ++ [p] }
  | .nextClicked =>
      if s.origOverlayAttached then
        { s with origCloseAnimsRunning := s.origCloseAnimsRunning + 1 }
      else s
  | .nextCloseAnimSettled =>
      if s.origCloseAnimsRunning > 0 then
        { s with origCloseAnimsRunning := s.origCloseAnimsRunning - 1,
                 origOverlayAttached := false,
                 display := .loadingText,
                 inFlightRefreshes := s.inFlightRefreshes + 1 }
      else s

/-- Run a sequence of event-loop events. -/
def runUI (s : PokedexUI) (events : List UIEvent) : PokedexUI :=
  events.foldl stepUI s

/-- The number of hologram overlay containers attached to the DOM. -/
def overlayCount (s : PokedexUI) : Nat :=
  (if s.origOverlayAttached then 1 else 0) + s.appendedOverlays.length

/-- The state before any refresh: display slot blank, nothing in flight,
no overlay anywhere. -/
def initialUI : PokedexUI :=
  { currentType := none, display := .blank, inFlightRefreshes := 0,
    pendingHolograms := [], origOverlayAttached := false,
    origCloseAnimsRunning := 0, appendedOverlays := [] }

/-- The state with one hologram overlay open for Pokemon `p` of type `t`
and the event loop otherwise quiescent. -/
def overlayOpenUI (t : String) (p : Pokemon) : PokedexUI :=
  { currentType := some t, display := .shown p, inFlightRefreshes := 0,
    pendingHolograms := [], origOverlayAttached := true,
    origCloseAnimsRunning := 0, appendedOverlays := [] }

/-- JavaScript `s.padStart(targetLen, c)`: prepend copies of `c` until the
length reaches `targetLen`; a string already long enough is unchanged
(natural subtraction makes the pad empty then). -/
def padStart (s : String) (targetLen : Nat) (c : Char) : String :=
  String.mk (List.replicate (targetLen - s.length) c) ++ s

/-- JavaScript `name.charAt(0).toUpperCase() + name.slice(1)`
(RandomPokemon.js line 89): the empty string maps to itself. -/
def capitalizeJS (s : String) : String :=
  match s.data with
  | [] => ""
  | c :: cs => String.mk (c.toUpper :: cs)

/-- The number text written by `displayPokemon` (RandomPokemon.js line 88):
the template literal is `No.` followed by `String(pokemon.id).padStart(4, '0')`. -/
def pokemonNumberText (id : Nat) : String :=
  "No." ++ padStart (toString id) 4 '0'

/-- The name text written by `displayPokemon` (RandomPokemon.js line 89). -/
def pokemonNameText (name : String) : String :=
  capitalizeJS name

/-- The number format the specification claims for the display slot: zero
padding to 3 digits, or to 4 when the id exceeds 999.  Stated from the
words of the spec, to be compared with `pokemonNumberText`. -/
def claimedNumberText (id : Nat) : String :=
  "No." ++ padStart (toString id) (if id > 999 then 4 else 3) '0'

/-- A language reference inside a flavor text entry. -/
structure LanguageRef where
  name : String
deriving DecidableEq

/-- A flavor text entry of the species record (Hologram.js line 41). -/
structure FlavorEntry where
  language : LanguageRef
  flavor_text : String
deriving DecidableEq

/-- The regex replacement of Hologram.js lines 45 and 51:
`flavor_text.replace(/\n|\f/g, ' ')` replaces every newline and form feed
character by a space. -/
def replaceNlFf (s : String) : String :=
  String.mk (s.data.map (fun c => if c = '\n' || c = '\x0C' then ' ' else c))

/-- `getLatestFlavorText` of Hologram.js lines 41-55: the first entry whose
language is `ja`, else the first whose language is `en`, else a fixed
fallback text. -/
def getLatestFlavorText (flavorTextEntries : List FlavorEntry) : String :=
  match flavorTextEntries.find? (fun entry => entry.language.name == "ja") with
  | some japaneseEntry => replaceNlFf japaneseEntry.flavor_text
  | none =>
    match flavorTextEntries.find? (fun entry => entry.language.name == "en") with
    | some englishEntry => replaceNlFf englishEntry.flavor_text
    | none => "No description available."

/-- The description computation as the claim words it: if any entry has
language `ja`, the first such entry wins; otherwise the first `en` entry;
otherwise the fallback.  Written with filter-and-head to follow the words
of the claim, to be compared with `getLatestFlavorText`. -/
def flavorTextByClaim (entries : List FlavorEntry) : String :=
  match (entries.filter (fun entry => entry.language.name == "ja")).head? with
  | some e => replaceNlFf e.flavor_text
  | none =>
    match (entries.filter (fun entry => entry.language.name == "en")).head? with
    | some e => replaceNlFf e.flavor_text
    | none => "No description available."

/-- A type reference inside a detail record type slot (Hologram.js line 63
reads `t.type.name`). -/
structure NamedRef where
  name : String
deriving DecidableEq

/-- One element of the `types` array of the detail record. -/
structure TypeSlot where
  type : NamedRef
deriving DecidableEq

/-- `formatTypes` of Hologram.js lines 62-64:
`types.map(t => t.type.name).join(' / ')`. -/
def formatTypes (types : List TypeSlot) : String :=
  String.intercalate " / " (types.map (fun t => t.type.name))

/-- JavaScript `(n / 10).toFixed(1)` for a natural `n` (Hologram.js lines
159-160 divide the decimeter and hectogram fields by 10): one exact
decimal digit. -/
def toFixed1OfTenth (n : Nat) : String :=
  toString (n / 10) ++ "." ++ toString (n % 10)

/-- The fields of the full detail record that `createHologram` renders into
the stats section. -/
structure HologramDetails where
  types : List TypeSlot
  height : Nat
  weight : Nat
deriving DecidableEq

/-- The species record carrying the flavor text entries. -/
structure SpeciesRecord where
  flavor_text_entries : List FlavorEntry
deriving DecidableEq

/-- The contents of one hologram section, abstracting the written
innerHTML to its rendered data: the initial loading paragraph, the stats
lines (types text, height text, weight text), the description paragraph,
or an error paragraph. -/
inductive SectionContent where
  | loadingText
  | stats : String → String → String → SectionContent
  | description : String → SectionContent
  | errorText : String → SectionContent
deriving DecidableEq

/-- The fetch join of `createHologram` (Hologram.js lines 149-173):
`Promise.all([fetchPokemonDetails, fetchPokemonSpecies])` with a single
catch.  When both fetches fulfil, the stats and description sections are
written from the two records; when either rejects, the catch writes the
two fixed error paragraphs — into both sections. -/
def hologramFetchJoin (details : Except JSError HologramDetails)
    (species : Except JSError SpeciesRecord) : SectionContent × SectionContent :=
  match details, species with
  | .ok d, .ok s =>
      (.stats (formatTypes d.types)
              (toFixed1OfTenth d.height ++ " m")
              (toFixed1OfTenth d.weight ++ " kg"),
       .description (getLatestFlavorText s.flavor_text_entries))
  | _, _ =>
      (.errorText "Failed to load stats", .errorText "Failed to load description")

/-- A result entry of the type list endpoint, as TypeSelector.js uses it. -/
structure TypeEntry where
  name : String
  url : String
deriving DecidableEq

/-- The filter applied by `fetchTypes` (TypeSelector.js line 275) to the
fetched results:
`data.results.filter(type => !['unknown', 'shadow'].includes(type.name))`. -/
def fetchTypes (results : List TypeEntry) : List TypeEntry :=
  results.filter (fun type => !((["unknown", "shadow"] : List String).contains type.name))

/-! ## Shared helper lemmas -/

/-- The first element satisfying a predicate is the head of the filtered
list. -/
theorem find?_eq_head?_filter {α : Type} (p : α → Bool) (l : List α) :
    l.find? p = (l.filter p).head? := by
  induction l with
  | nil => rfl
  | cons a as ih =>
    by_cases h : p a
    · rw [List.find?_cons_of_pos _ h, List.filter_cons_of_pos h, List.head?_cons]
    · rw [List.find?_cons_of_neg _ h, List.filter_cons_of_neg h, ih]

/-! ## Claim theorems -/

/-- C3: a gesture delivered while a transition animation is in progress
(`isAnimating` true, i.e. state OPENING or CLOSING) is dropped by
`handleScroll` without any effect, and neither `openPokedex` nor
`closePokedex` starts a transition then, so no second transition can start
while one is active. -/
theorem gesture_dropped_while_animating (e : GestureEvent) (s : PokedexState)
    (h : s.isAnimating = true) :
    handleScroll e s = s ∧ openPokedexStart s = s ∧ closePokedexStart s = s := by
  refine ⟨?_, ?_, ?_⟩
  · simp only [handleScroll, h, if_true]
  · simp only [openPokedexStart, h, Bool.or_true, if_true]
  · simp only [closePokedexStart, h, Bool.or_true, if_true]

/-- Witness for C3: a forward gesture arriving in the OPENING state leaves
the state untouched. -/
theorem gesture_dropped_while_animating_witness :
    (PokedexState.mk false true).isAnimating = true ∧
      (handleScroll ⟨some JSNum.posInf, none⟩ ⟨false, true⟩ = ⟨false, true⟩ ∧
       openPokedexStart ⟨false, true⟩ = ⟨false, true⟩ ∧
       closePokedexStart ⟨false, true⟩ = ⟨false, true⟩) :=
  ⟨rfl, gesture_dropped_while_animating ⟨some JSNum.posInf, none⟩ ⟨false, true⟩ rfl⟩

/-- C7: `openPokedex` is a no-op when the panel is already opened, and
`closePokedex` is a no-op when it is already closed: the guards of
Pokedex.js lines 71 and 118 return before any state change. -/
theorem panel_ops_idempotent_at_stable_states (s s' : PokedexState)
    (hOpen : s.isOpened = true) (hClosed : s'.isOpened = false) :
    openPokedexStart s = s ∧ closePokedexStart s' = s' := by
  constructor <;> simp [openPokedexStart, closePokedexStart, hOpen, hClosed]

/-- Witness for C7: instantiated at the OPEN and CLOSED states. -/
theorem panel_ops_idempotent_at_stable_states_witness :
    openState.isOpened = true ∧ closedState.isOpened = false ∧
      (openPokedexStart openState = openState ∧ closePokedexStart closedState = closedState) :=
  ⟨rfl, rfl, panel_ops_idempotent_at_stable_states openState closedState rfl rfl⟩

/-- C8 counterexample: the claim says every non-finite delta is treated as
zero-magnitude, but a `+Infinity` delta satisfies `deltaY > 0` in
JavaScript, so `handleScroll` on the CLOSED panel starts the opening
transition instead of leaving the state unchanged. -/
theorem nonfinite_delta_counterexample :
    handleScroll ⟨some JSNum.posInf, none⟩ closedState = PokedexState.mk false true ∧
      PokedexState.mk false true ≠ closedState :=
  ⟨rfl, by decide⟩

/-- C8 amended: only NaN deltas (and a zero delta) are inert — a NaN
`e.deltaY` is falsy and falls back to the touch position or 0, and NaN
comparisons are false — while `+Infinity` acts as an ordinary forward
gesture and `-Infinity` as an ordinary backward gesture. -/
theorem nonfinite_delta_behavior :
    (∀ s : PokedexState, handleScroll ⟨some JSNum.nan, none⟩ s = s) ∧
    (∀ s : PokedexState, handleScroll ⟨some JSNum.nan, some JSNum.nan⟩ s = s) ∧
    (∀ s : PokedexState, handleScroll ⟨some (JSNum.fin 0), none⟩ s = s) ∧
    handleScroll ⟨some JSNum.posInf, none⟩ closedState = openPokedexStart closedState ∧
    handleScroll ⟨some JSNum.negInf, none⟩ openState = closePokedexStart openState := by
  refine ⟨?_, ?_, ?_, rfl, rfl⟩ <;>
    (intro s; rcases s with ⟨o, a⟩; cases o <;> cases a <;> rfl)

/-- C1 counterexample: refresh(A) for type `fire`, then refresh(B) for
type `water` before A resolves; B resolves first, A resolves last.  The
source compares no generation token, so the continuation of A overwrites
the display with the stale fire Pokemon — the claim requires the final
display to be the result of B, never of A. -/
theorem token_discard_counterexample :
    (runUI initialUI [UIEvent.refreshRequested "fire", UIEvent.refreshRequested "water",
      UIEvent.refreshResolvedOk ⟨7, "squirtle", "squirtle.png"⟩,
      UIEvent.refreshResolvedOk ⟨6, "charizard", "charizard.png"⟩]).display
        = DisplayContent.shown ⟨6, "charizard", "charizard.png"⟩ ∧
    DisplayContent.shown (Pokemon.mk 6 "charizard" "charizard.png")
        ≠ DisplayContent.shown ⟨7, "squirtle", "squirtle.png"⟩ :=
  ⟨rfl, by decide⟩

/-- C1 amended: with two overlapping refresh invocations the display slot
ends up showing the result of whichever invocation resolves last (last
writer wins); there is no generation token and no discard of stale
results. -/
theorem overlapping_refresh_last_writer_wins (tA tB : String) (pA pB : Pokemon) :
    (runUI initialUI [UIEvent.refreshRequested tA, UIEvent.refreshRequested tB,
      UIEvent.refreshResolvedOk pB, UIEvent.refreshResolvedOk pA]).display
        = DisplayContent.shown pA ∧
    (runUI initialUI [UIEvent.refreshRequested tA, UIEvent.refreshRequested tB,
      UIEvent.refreshResolvedOk pA, UIEvent.refreshResolvedOk pB]).display
        = DisplayContent.shown pB :=
  ⟨rfl, rfl⟩

/-- C2 counterexample: `displayPokemon` pads the id to 4 digits
unconditionally, so id 25 renders as `No.0025`, not the `No.025` the
claim requires for ids up to 999. -/
theorem display_number_padding_counterexample :
    pokemonNumberText 25 = "No.0025" ∧ claimedNumberText 25 = "No.025" ∧
      pokemonNumberText 25 ≠ claimedNumberText 25 :=
  ⟨rfl, rfl, by decide⟩

/-- C2 amended: the display slot renders the number as `No.` followed by
the id zero-padded to 4 digits for every id (id 25 renders `No.0025`,
id 4 renders `No.0004`, id 1024 renders `No.1024`), and renders the name
with its first character upper-cased and the rest unchanged. -/
theorem display_rendering_amended :
    pokemonNumberText 25 = "No.0025" ∧ pokemonNumberText 4 = "No.0004" ∧
    pokemonNumberText 1024 = "No.1024" ∧
    pokemonNameText "charmander" = "Charmander" ∧
    ∀ (c : Char) (cs : List Char),
      capitalizeJS (String.mk (c :: cs)) = String.mk (c.toUpper :: cs) :=
  ⟨rfl, rfl, rfl, rfl, fun _ _ => rfl⟩

/-- The event-loop schedule of the double-Next scenario: two clicks on the
Next button of the open overlay, then the two close animations settle
(each running remove-then-onNext), then the two refresh fetches resolve,
then the two 1000 ms hologram timeouts fire. -/
def doubleNextTrace (p1 p2 : Pokemon) : List UIEvent :=
  [UIEvent.nextClicked, UIEvent.nextClicked,
   UIEvent.nextCloseAnimSettled, UIEvent.nextCloseAnimSettled,
   UIEvent.refreshResolvedOk p1, UIEvent.refreshResolvedOk p2,
   UIEvent.hologramDelayFired, UIEvent.hologramDelayFired]

/-- C4 counterexample: clicking Next twice within the close-animation
window runs the remove-and-onNext continuation twice, so two refresh
invocations run and two hologram containers are appended: after
everything settles two overlay instances exist, not the exactly one the
claim requires. -/
theorem single_overlay_counterexample :
    overlayCount (runUI (overlayOpenUI "fire" ⟨1, "bulbasaur", "bulbasaur.png"⟩)
        (doubleNextTrace ⟨4, "charmander", "charmander.png"⟩ ⟨5, "charmeleon", "charmeleon.png"⟩))
      = 2 ∧ (2 : Nat) ≠ 1 :=
  ⟨rfl, by decide⟩

/-- C4 amended: after a double Next click the original overlay is gone and
exactly two new overlay instances exist, one per refresh invocation, each
showing the item of its own invocation; the Next handler has no
re-entrancy guard. -/
theorem double_next_two_overlays (t : String) (p0 p1 p2 : Pokemon) :
    (runUI (overlayOpenUI t p0) (doubleNextTrace p1 p2)).appendedOverlays = [p1, p2] ∧
    (runUI (overlayOpenUI t p0) (doubleNextTrace p1 p2)).origOverlayAttached = false ∧
    overlayCount (runUI (overlayOpenUI t p0) (doubleNextTrace p1 p2)) = 2 :=
  ⟨rfl, rfl, rfl⟩

/-- C5 counterexample: the details fetch succeeds and the species fetch
fails, yet the single catch of the `Promise.all` join writes the error
placeholder into both sections: the stats section shows the error text
instead of the successfully fetched stats content. -/
theorem partial_fetch_failure_counterexample :
    hologramFetchJoin (Except.ok ⟨[⟨⟨"fire"⟩⟩], 6, 85⟩)
        (Except.error (JSError.thrown "Failed to fetch Pokemon species"))
      = (SectionContent.errorText "Failed to load stats",
         SectionContent.errorText "Failed to load description") ∧
    SectionContent.errorText "Failed to load stats"
      ≠ SectionContent.stats "fire" "0.6 m" "8.5 kg" ∧
    hologramFetchJoin (Except.ok ⟨[⟨⟨"fire"⟩⟩], 6, 85⟩)
        (Except.ok ⟨[⟨⟨"ja"⟩, "ひのこ"⟩]⟩)
      = (SectionContent.stats "fire" "0.6 m" "8.5 kg",
         SectionContent.description "ひのこ") :=
  ⟨rfl, by decide, by decide⟩

/-- C5 amended: when either of the two concurrent detail fetches fails,
both sections show their error placeholders — the successfully fetched
half is discarded by the joint catch; only when both succeed are the
stats and description rendered. -/
theorem fetch_join_error_sections (d : HologramDetails) (sp : SpeciesRecord) (e eb : JSError) :
    hologramFetchJoin (Except.ok d) (Except.error e)
      = (SectionContent.errorText "Failed to load stats",
         SectionContent.errorText "Failed to load description") ∧
    hologramFetchJoin (Except.error e) (Except.ok sp)
      = (SectionContent.errorText "Failed to load stats",
         SectionContent.errorText "Failed to load description") ∧
    hologramFetchJoin (Except.error e) (Except.error eb)
      = (SectionContent.errorText "Failed to load stats",
         SectionContent.errorText "Failed to load description") ∧
    hologramFetchJoin (Except.ok d) (Except.ok sp)
      = (SectionContent.stats (formatTypes d.types)
           (toFixed1OfTenth d.height ++ " m") (toFixed1OfTenth d.weight ++ " kg"),
         SectionContent.description (getLatestFlavorText sp.flavor_text_entries)) :=
  ⟨rfl, rfl, rfl, rfl⟩

/-- C6 counterexample: on an empty membership list `getRandomPokemon`
computes index 0, reads the `url` property of an undefined element and
fails with the unclassified runtime TypeError — not with a distinguishable
EmptyCategory failure kind, which the source nowhere constructs. -/
theorem empty_category_counterexample :
    getRandomPokemon [] (1 / 2) (fun _ => Except.error (JSError.thrown "unused"))
      = Except.error (JSError.undefinedPropertyRead "url") ∧
    (JSError.undefinedPropertyRead "url").isUndefinedRead = true :=
  ⟨rfl, rfl⟩

/-- C6 amended: for every random draw, the refresh on an empty membership
list fails with the runtime TypeError from reading `url` of undefined,
and the display slot then shows that error text through the catch of
`showPokemonWithHologram` — the UI does not crash, but no EmptyCategory
kind exists. -/
theorem empty_list_refresh_shows_error (r : ℚ) (fd : String → Except JSError DetailRecord) :
    getRandomPokemon [] r fd = Except.error (JSError.undefinedPropertyRead "url") ∧
    refreshOutcomeDisplay (getRandomPokemon [] r fd)
      = DisplayContent.errorText
          "Error: Cannot read properties of undefined (reading url)" := by
  have h : getRandomPokemon [] r fd = Except.error (JSError.undefinedPropertyRead "url") := by
    simp [getRandomPokemon]
  exact ⟨h, by rw [h]; rfl⟩

/-- C9: the overlay description follows the fixed language preference:
the first `ja` entry if any, else the first `en` entry, else the fallback
text, with newline and form feed characters replaced by spaces —
`getLatestFlavorText` coincides with the computation the claim words
describe. -/
theorem flavor_text_language_preference (entries : List FlavorEntry) :
    getLatestFlavorText entries = flavorTextByClaim entries := by
  unfold getLatestFlavorText flavorTextByClaim
  rw [find?_eq_head?_filter, find?_eq_head?_filter]

/-- C10: `fetchTypes` keeps exactly the entries whose name is neither
`unknown` nor `shadow`, in their original order (the result is the
filtered list and a sublist of the input). -/
theorem type_selector_filter (results : List TypeEntry) :
    fetchTypes results
      = results.filter (fun t => decide (t.name ≠ "unknown" ∧ t.name ≠ "shadow")) ∧
    (fetchTypes results).Sublist results := by
  constructor
  · unfold fetchTypes
    apply List.filter_congr
    intro t _
    by_cases h1 : t.name = "unknown" <;> by_cases h2 : t.name = "shadow" <;>
      simp [h1, h2]
  · exact List.filter_sublist _
